import Mathlib

/-!
Verification of the powerpack Alfred script-filter data model and its
serialization contract (src/lib.rs).

The Rust types (`ModifierKey`, `Icon`, `Kind`, `Text`, `ModifierData`,
`Item`, `Output`) are embedded as Lean structures and inductives, and
serde's derived/handwritten `Serialize` implementations are embedded as
functions into a JSON value type.  serde attributes are reflected
faithfully: `rename` becomes a different key string, and
`skip_serializing_if` becomes conditional omission of the key-value pair.
The `Text` struct in the source carries no `skip_serializing_if`
attributes, so its two optional fields serialize as explicit `null`s;
the embedding reproduces that.

`HashMap<ModifierKey, ModifierData>` is embedded as an association list
with hash-map insert semantics (replace the entry when the key is present,
append otherwise); iteration order of the Rust hash map is unspecified, the
association list fixes it to insertion order, which is irrelevant to the
properties proved here (at most one entry is ever inspected).
-/

namespace Powerpack

/-- A JSON value, as produced by serde_json for this crate: only null,
booleans, strings, arrays and objects occur. Objects are ordered lists of
key-value pairs, matching serde's field-declaration-order emission. -/
inductive Json where
| null : Json
| bool (b : Bool) : Json
| str (s : String) : Json
| arr (xs : List Json) : Json
| obj (fields : List (String × Json)) : Json

/-- `ModifierKey` from src/lib.rs: a keyboard modifier. -/
inductive ModifierKey where
| Command : ModifierKey
| Option : ModifierKey
| Control : ModifierKey
| Shift : ModifierKey
| Function : ModifierKey
deriving DecidableEq

/-- The serde `rename` attribute on each `ModifierKey` variant: the external
string each variant serializes to. -/
def ModifierKey.external : ModifierKey → String
| ModifierKey.Command => "cmd"
| ModifierKey.Option => "alt"
| ModifierKey.Control => "ctrl"
| ModifierKey.Shift => "shift"
| ModifierKey.Function => "fn"

/-- `IconInner` from src/lib.rs (dairy `PathBuf`/`String` payloads are both
embedded as `String`). -/
inductive IconInner where
| Image (path : String) : IconInner
| FileIcon (path : String) : IconInner
| FileType (string : String) : IconInner
deriving DecidableEq

/-- `Icon` from src/lib.rs: a newtype over `IconInner`. -/
structure Icon where
  inner : IconInner
  deriving DecidableEq

/-- `Kind` from src/lib.rs: the type of item. -/
inductive Kind where
| Default : Kind
| File : Kind
| FileSkipCheck : Kind
deriving DecidableEq

/-- The serde `rename` attribute on each `Kind` variant. -/
def Kind.external : Kind → String
| Kind.Default => "default"
| Kind.File => "file"
| Kind.FileSkipCheck => "file:skipcheck"

/-- `Text` from src/lib.rs: the copied or large type text.  Note: in the
source neither field carries `skip_serializing_if`. -/
structure Text where
  copy : Option String
  large_type : Option String
  deriving DecidableEq

/-- `ModifierData` from src/lib.rs: settings for when a modifier key is
pressed.  All four fields carry `skip_serializing_if = Option::is_none`. -/
structure ModifierData where
  subtitle : Option String
  arg : Option String
  icon : Option Icon
  valid : Option Bool
  deriving DecidableEq

/-- `Item` from src/lib.rs: an Alfred script filter item.  The `modifiers`
hash map is embedded as an association list. -/
structure Item where
  title : String
  subtitle : Option String
  uid : Option String
  arg : Option String
  icon : Option Icon
  valid : Option Bool
  «matches» : Option String
  autocomplete : Option String
  kind : Kind
  modifiers : List (ModifierKey × ModifierData)
  text : Option Text
  quicklook_url : Option String
  deriving DecidableEq

/-- `Output` from src/lib.rs: the output of a workflow. -/
structure Output where
  items : List Item
  deriving DecidableEq

/-- `Default for Kind` (src/lib.rs line 273). -/
def Kind.default : Kind := Kind.Default

/-- `Default` derive for `ModifierData`: every field `None`. -/
def ModifierData.default : ModifierData :=
{ subtitle := none, arg := none, icon := none, valid := none }

/-- `Default` derive for `Item`: empty title, all options `None`,
default kind, empty modifier map. -/
def Item.default : Item :=
{ title := "", subtitle := none, uid := none, arg := none, icon := none,
  valid := none, «matches» := none, autocomplete := none,
  kind := Kind.default, modifiers := [], text := none,
  quicklook_url := none }

/-- `Default` derive for `Output`: empty item list. -/
def Output.default : Output := { items := [] }

/-! # Serialization -/

/-- One serde field with `skip_serializing_if = Option::is_none`: emitted
under key `k` when present, omitted entirely when absent. -/
def optField {α : Type} (k : String) (o : Option α) (f : α → Json) :
    List (String × Json) :=
  match o with
  | none => []
  | some v => [(k, f v)]

/-- One serde `Option` field without `skip_serializing_if`: always emitted,
as `null` when absent. -/
def nullField {α : Type} (o : Option α) (f : α → Json) : Json :=
  match o with
  | none => Json.null
  | some v => f v

/-- `impl Serialize for Icon` (src/lib.rs lines 190-212): each variant
serializes to its own key set. -/
def serializeIcon (i : Icon) : Json :=
  match i.inner with
  | IconInner.Image path => Json.obj [("path", Json.str path)]
  | IconInner.FileIcon path =>
      Json.obj [("type", Json.str "fileicon"), ("path", Json.str path)]
  | IconInner.FileType string =>
      Json.obj [("type", Json.str "filetype"), ("path", Json.str string)]

/-- Derived `Serialize` for `Text`: both fields lack `skip_serializing_if`
in the source, so both keys are always present, `null` when unset;
`large_type` is renamed to `largetype`. -/
def serializeText (t : Text) : Json :=
  Json.obj [("copy", nullField t.copy Json.str),
            ("largetype", nullField t.large_type Json.str)]

/-- Derived `Serialize` for `ModifierData`: each field skipped when `None`. -/
def serializeModifierData (d : ModifierData) : Json :=
  Json.obj (optField "subtitle" d.subtitle Json.str ++
    (optField "arg" d.arg Json.str ++
    (optField "icon" d.icon serializeIcon ++
    optField "valid" d.valid Json.bool)))

/-- Derived `Serialize` for `Item`, field by field in declaration order:
`title` always; the optional fields skipped when `None`; `matches` renamed
to `match`; `kind` renamed to `type` and skipped when equal to its default;
`modifiers` renamed to `mods` and skipped when empty; `quicklook_url`
renamed to `quicklookurl`. -/
def serializeItem (i : Item) : Json :=
  Json.obj (("title", Json.str i.title) ::
    (optField "subtitle" i.subtitle Json.str ++
    (optField "uid" i.uid Json.str ++
    (optField "arg" i.arg Json.str ++
    (optField "icon" i.icon serializeIcon ++
    (optField "valid" i.valid Json.bool ++
    (optField "match" i.«matches» Json.str ++
    (optField "autocomplete" i.autocomplete Json.str ++
    ((if i.kind = Kind.default then []
      else [("type", Json.str i.kind.external)]) ++
    ((if i.modifiers = [] then []
      else [("mods", Json.obj (i.modifiers.map
        (fun p => (p.1.external, serializeModifierData p.2))))]) ++
    (optField "text" i.text serializeText ++
    optField "quicklookurl" i.quicklook_url Json.str)))))))))))

/-- Derived `Serialize` for `Output`: a single `items` array. -/
def serializeOutput (o : Output) : Json :=
  Json.obj [("items", Json.arr (o.items.map serializeItem))]

/-! # Rendering to a byte stream (serde_json compact encoding) -/

/-- Lowercase hex digit, as serde_json uses in control-character escapes. -/
def hexDigit (n : Nat) : Char :=
  if n < 10 then Char.ofNat (48 + n) else Char.ofNat (87 + n)

/-- serde_json's escaping of a single character inside a JSON string. -/
def escapeChar (c : Char) : String :=
  if c = Char.ofNat 34 then "\\\""
  else if c = Char.ofNat 92 then "\\\\"
  else if c = Char.ofNat 8 then "\\b"
  else if c = Char.ofNat 9 then "\\t"
  else if c = Char.ofNat 10 then "\\n"
  else if c = Char.ofNat 12 then "\\f"
  else if c = Char.ofNat 13 then "\\r"
  else if c.toNat < 32 then
    String.mk [Char.ofNat 92, Char.ofNat 117, Char.ofNat 48, Char.ofNat 48,
      hexDigit (c.toNat / 16), hexDigit (c.toNat % 16)]
  else String.singleton c

/-- A JSON string literal with serde_json escaping. -/
def renderString (s : String) : String :=
  "\"" ++ String.join (s.toList.map escapeChar) ++ "\""

mutual

/-- serde_json's compact rendering of a JSON value. -/
def render : Json → String
| Json.null => "null"
| Json.bool b => if b then "true" else "false"
| Json.str s => renderString s
| Json.arr xs => "[" ++ renderArr xs ++ "]"
| Json.obj fs => "\x7b" ++ renderObj fs ++ "\x7d"

/-- Comma-separated rendering of array elements. -/
def renderArr : List Json → String
| [] => ""
| [x] => render x
| x :: y :: xs => render x ++ "," ++ renderArr (y :: xs)

/-- Comma-separated rendering of object members. -/
def renderObj : List (String × Json) → String
| [] => ""
| [(k, v)] => renderString k ++ ":" ++ render v
| (k, v) :: f :: fs =>
    renderString k ++ ":" ++ render v ++ "," ++ renderObj (f :: fs)

end

/-! # Builders -/

/-- `Icon::with_image` (src/lib.rs line 225). -/
def Icon.with_image (path : String) : Icon := { inner := IconInner.Image path }

/-- `Icon::with_file_icon` (src/lib.rs line 250). -/
def Icon.with_file_icon (path : String) : Icon :=
{ inner := IconInner.FileIcon path }

/-- `Icon::with_type` (src/lib.rs line 268). -/
def Icon.with_type (uti : String) : Icon := { inner := IconInner.FileType uti }

/-- `ModifierData::new` (src/lib.rs line 308). -/
def ModifierData.new : ModifierData := ModifierData.default

/-- Setter `ModifierData::subtitle` (from the `setter!` macro). -/
def ModifierData.subtitle' (d : ModifierData) (value : String) : ModifierData :=
{ d with subtitle := some value }

/-- Setter `ModifierData::arg`. -/
def ModifierData.arg' (d : ModifierData) (value : String) : ModifierData :=
{ d with arg := some value }

/-- Setter `ModifierData::icon`. -/
def ModifierData.icon' (d : ModifierData) (value : Icon) : ModifierData :=
{ d with icon := some value }

/-- Setter `ModifierData::valid`. -/
def ModifierData.valid' (d : ModifierData) (value : Bool) : ModifierData :=
{ d with valid := some value }

/-- `Item::new` (src/lib.rs line 327): the given title, defaults elsewhere. -/
def Item.new (title : String) : Item :=
{ Item.default with title := title }

/-- Setter `Item::subtitle`. -/
def Item.subtitle' (i : Item) (value : String) : Item :=
{ i with subtitle := some value }

/-- Setter `Item::uid`. -/
def Item.uid' (i : Item) (value : String) : Item :=
{ i with uid := some value }

/-- Setter `Item::arg`. -/
def Item.arg' (i : Item) (value : String) : Item :=
{ i with arg := some value }

/-- Setter `Item::icon`. -/
def Item.icon' (i : Item) (value : Icon) : Item :=
{ i with icon := some value }

/-- Setter `Item::valid`. -/
def Item.valid' (i : Item) (value : Bool) : Item :=
{ i with valid := some value }

/-- Setter `Item::matches`. -/
def Item.matches' (i : Item) (value : String) : Item :=
{ i with «matches» := some value }

/-- Setter `Item::autocomplete`. -/
def Item.autocomplete' (i : Item) (value : String) : Item :=
{ i with autocomplete := some value }

/-- Setter `Item::kind` (non-`Option` variant of the `setter!` macro:
assigns directly). -/
def Item.kind' (i : Item) (value : Kind) : Item :=
{ i with kind := value }

/-- Setter `Item::text`. -/
def Item.text' (i : Item) (value : Text) : Item :=
{ i with text := some value }

/-- Setter `Item::quicklook_url`. -/
def Item.quicklook_url' (i : Item) (value : String) : Item :=
{ i with quicklook_url := some value }

/-- `HashMap::insert` semantics on the association-list embedding: when the
key is already present its entry is replaced in place, otherwise the new
entry is appended. -/
def hashInsert (m : List (ModifierKey × ModifierData)) (k : ModifierKey)
    (d : ModifierData) : List (ModifierKey × ModifierData) :=
  if m.any (fun p => p.1 = k) then
    m.map (fun p => if p.1 = k then (k, d) else p)
  else m ++ [(k, d)]

/-- `Item::modifier` (src/lib.rs lines 345-349): inserts into the hash map. -/
def Item.modifier (i : Item) (key : ModifierKey) (data : ModifierData) :
    Item :=
{ i with modifiers := hashInsert i.modifiers key data }

/-- `Output::items` (src/lib.rs lines 353-360): replaces the item sequence
with the collected contents of the given sequence. -/
def Output.items' (o : Output) (iter : List Item) : Output :=
{ o with items := iter }

/-- `Output::write` (src/lib.rs line 362) modelled as producing the byte
stream serde_json would write to the sink. -/
def Output.write (o : Output) : String :=
  render (serializeOutput o)

/-- The `output` convenience function (src/lib.rs lines 368-373), modelled
as the bytes written to stdout. -/
def output (items : List Item) : String :=
  (Output.default.items' items).write

/-! # Lookup helpers for stating the claims -/

/-- First value stored under a key in an object's field list. -/
def getKey : List (String × Json) → String → Option Json
| [], _ => none
| (k, v) :: rest, key => if k = key then some v else getKey rest key

/-- Field lookup on a JSON value: `none` both for a missing key and for a
non-object. -/
def Json.get (j : Json) (key : String) : Option Json :=
  match j with
  | Json.obj fs => getKey fs key
  | _ => none

/-- First data stored under a modifier key in the modifier map. -/
def lookupMod : List (ModifierKey × ModifierData) → ModifierKey →
    Option ModifierData
| [], _ => none
| (k, v) :: rest, key => if k = key then some v else lookupMod rest key


/-! # Lookup lemmas -/

theorem getKey_cons_ne {k key : String} (h : ¬ k = key) (v : Json)
    (rest : List (String × Json)) :
    getKey ((k, v) :: rest) key = getKey rest key := by
  simp [getKey, h]

theorem getKey_optField_ne {α : Type} {k key : String} (h : ¬ k = key)
    (o : Option α) (f : α → Json) (rest : List (String × Json)) :
    getKey (optField k o f ++ rest) key = getKey rest key := by
  cases o <;> simp [optField, getKey, h]

theorem getKey_optField_ne_nil {α : Type} {k key : String} (h : ¬ k = key)
    (o : Option α) (f : α → Json) :
    getKey (optField k o f) key = none := by
  cases o <;> simp [optField, getKey, h]

theorem getKey_optField_self {α : Type} (k : String) (o : Option α)
    (f : α → Json) (rest : List (String × Json))
    (h : getKey rest k = none) :
    getKey (optField k o f ++ rest) k = Option.map f o := by
  cases o <;> simp [optField, getKey, h]

theorem getKey_optField_self_nil {α : Type} (k : String) (o : Option α)
    (f : α → Json) :
    getKey (optField k o f) k = Option.map f o := by
  cases o <;> simp [optField, getKey]

theorem getKey_guard_ne {k key : String} (h : ¬ k = key) (c : Prop)
    [Decidable c] (v : Json) (rest : List (String × Json)) :
    getKey ((if c then [] else [(k, v)]) ++ rest) key = getKey rest key := by
  split <;> simp [getKey, h]

theorem getKey_guard_self (k : String) (c : Prop) [Decidable c] (v : Json)
    (rest : List (String × Json)) (h : getKey rest k = none) :
    getKey ((if c then [] else [(k, v)]) ++ rest) k =
      if c then none else some v := by
  split <;> simp [getKey, h]

/-- The `type` key of a serialized `Item` is governed by the
`skip_serializing_if = is_default` attribute on `kind`. -/
theorem serializeItem_get_type (i : Item) :
    (serializeItem i).get "type" =
      if i.kind = Kind.Default then none
      else some (Json.str i.kind.external) := by
  simp only [serializeItem, Json.get]
  rw [getKey_cons_ne (by decide), getKey_optField_ne (by decide),
    getKey_optField_ne (by decide), getKey_optField_ne (by decide),
    getKey_optField_ne (by decide), getKey_optField_ne (by decide),
    getKey_optField_ne (by decide), getKey_optField_ne (by decide),
    getKey_guard_self]
  · simp [Kind.default]
  · rw [getKey_guard_ne (by decide), getKey_optField_ne (by decide),
      getKey_optField_ne_nil (by decide)]

/-- The `mods` key of a serialized `Item` is governed by the
`skip_serializing_if = HashMap::is_empty` attribute on `modifiers`. -/
theorem serializeItem_get_mods (i : Item) :
    (serializeItem i).get "mods" =
      if i.modifiers = [] then none
      else some (Json.obj (i.modifiers.map
        (fun p => (p.1.external, serializeModifierData p.2)))) := by
  simp only [serializeItem, Json.get]
  rw [getKey_cons_ne (by decide), getKey_optField_ne (by decide),
    getKey_optField_ne (by decide), getKey_optField_ne (by decide),
    getKey_optField_ne (by decide), getKey_optField_ne (by decide),
    getKey_optField_ne (by decide), getKey_optField_ne (by decide),
    getKey_guard_ne (by decide), getKey_guard_self]
  rw [getKey_optField_ne (by decide), getKey_optField_ne_nil (by decide)]

/-! # Claims -/

/-- C1: the claim states that every optional field of every entity is
omitted from the serialized object when unset, never emitted as `null`;
`Text` violates this in the source (its two fields carry no
`skip_serializing_if` attribute, unlike every other optional field of the
crate), so a `Text` with both fields unset serializes to an object that
contains both keys with explicit `null` values, also when nested inside an
`Item`. -/
theorem C1_text_fields_serialize_as_null :
    serializeText { copy := none, large_type := none } =
      Json.obj [("copy", Json.null), ("largetype", Json.null)] ∧
    (serializeItem ((Item.new "t").text'
        { copy := none, large_type := none })).get "text" =
      some (Json.obj [("copy", Json.null), ("largetype", Json.null)]) :=
  ⟨rfl, rfl⟩

/-- C2: the `type` key is absent from a serialized `Item` exactly when its
kind is `Kind.Default` (both for `Item::new`'s default and for an explicit
`kind(Default)` call), and the non-default variants emit `"file"` and
`"file:skipcheck"` respectively. -/
theorem C2_type_key_omitted_iff_default_kind (i : Item) (t : String) :
    ((serializeItem i).get "type" =
      if i.kind = Kind.Default then none
      else some (Json.str i.kind.external)) ∧
    (serializeItem (Item.new t)).get "type" = none ∧
    (serializeItem (i.kind' Kind.Default)).get "type" = none ∧
    (serializeItem (i.kind' Kind.File)).get "type" =
      some (Json.str "file") ∧
    (serializeItem (i.kind' Kind.FileSkipCheck)).get "type" =
      some (Json.str "file:skipcheck") := by
  refine ⟨serializeItem_get_type i, ?_, ?_, ?_, ?_⟩ <;>
    rw [serializeItem_get_type] <;> simp [Item.new, Item.default,
      Item.kind', Kind.default, Kind.external]

/-- C3: an `Item` with an empty modifier map serializes without a `mods`
key; after one `modifier(key, data)` call the serialized object carries a
`mods` object holding exactly that entry under the key's external short
name. -/
theorem C3_mods_key_empty_and_singleton (i : Item) (k : ModifierKey)
    (d : ModifierData) (h : i.modifiers = []) :
    (serializeItem i).get "mods" = none ∧
    (serializeItem (i.modifier k d)).get "mods" =
      some (Json.obj [(k.external, serializeModifierData d)]) := by
  constructor
  · rw [serializeItem_get_mods, h]
    simp
  · rw [serializeItem_get_mods]
    simp [Item.modifier, hashInsert, h]

theorem C3_witness :
    (serializeItem (Item.new "a")).get "mods" = none ∧
    (serializeItem ((Item.new "a").modifier ModifierKey.Command
        ModifierData.new)).get "mods" =
      some (Json.obj [((ModifierKey.Command).external,
        serializeModifierData ModifierData.new)]) :=
  C3_mods_key_empty_and_singleton (Item.new "a") ModifierKey.Command
    ModifierData.new rfl

/-- C4: a set `matches` field is emitted under the external key `match`
and the key `matches` never occurs; a set `quicklook_url` field is emitted
under `quicklookurl` (and `quicklook_url` never occurs); unset fields
leave their keys absent. -/
theorem C4_match_and_quicklookurl_renames (i : Item) :
    (serializeItem i).get "match" = Option.map Json.str i.«matches» ∧
    (serializeItem i).get "matches" = none ∧
    (serializeItem i).get "quicklookurl" =
      Option.map Json.str i.quicklook_url ∧
    (serializeItem i).get "quicklook_url" = none := by
  refine ⟨?_, ?_, ?_, ?_⟩ <;> simp only [serializeItem, Json.get]
  · rw [getKey_cons_ne (by decide), getKey_optField_ne (by decide),
      getKey_optField_ne (by decide), getKey_optField_ne (by decide),
      getKey_optField_ne (by decide), getKey_optField_ne (by decide),
      getKey_optField_self]
    rw [getKey_optField_ne (by decide), getKey_guard_ne (by decide),
      getKey_guard_ne (by decide), getKey_optField_ne (by decide),
      getKey_optField_ne_nil (by decide)]
  · rw [getKey_cons_ne (by decide), getKey_optField_ne (by decide),
      getKey_optField_ne (by decide), getKey_optField_ne (by decide),
      getKey_optField_ne (by decide), getKey_optField_ne (by decide),
      getKey_optField_ne (by decide), getKey_optField_ne (by decide),
      getKey_guard_ne (by decide), getKey_guard_ne (by decide),
      getKey_optField_ne (by decide), getKey_optField_ne_nil (by decide)]
  · rw [getKey_cons_ne (by decide), getKey_optField_ne (by decide),
      getKey_optField_ne (by decide), getKey_optField_ne (by decide),
      getKey_optField_ne (by decide), getKey_optField_ne (by decide),
      getKey_optField_ne (by decide), getKey_optField_ne (by decide),
      getKey_guard_ne (by decide), getKey_guard_ne (by decide),
      getKey_optField_ne (by decide), getKey_optField_self_nil]
  · rw [getKey_cons_ne (by decide), getKey_optField_ne (by decide),
      getKey_optField_ne (by decide), getKey_optField_ne (by decide),
      getKey_optField_ne (by decide), getKey_optField_ne (by decide),
      getKey_optField_ne (by decide), getKey_optField_ne (by decide),
      getKey_guard_ne (by decide), getKey_guard_ne (by decide),
      getKey_optField_ne (by decide), getKey_optField_ne_nil (by decide)]

/-- C5: each of the three `Icon` constructors serializes to exactly the
documented key set: `with_image` to a lone `path`, `with_file_icon` to
`type = "fileicon"` plus `path`, `with_type` to `type = "filetype"` plus a
`path` key carrying the type identifier. -/
theorem C5_icon_constructor_shapes (p q u : String) :
    serializeIcon (Icon.with_image p) = Json.obj [("path", Json.str p)] ∧
    serializeIcon (Icon.with_file_icon q) =
      Json.obj [("type", Json.str "fileicon"), ("path", Json.str q)] ∧
    serializeIcon (Icon.with_type u) =
      Json.obj [("type", Json.str "filetype"), ("path", Json.str u)] :=
  ⟨rfl, rfl, rfl⟩


/-- C6: `Output::items` replaces the item sequence with the given one,
serialization lists the items in that exact caller-given order, and an
`Output` with zero items serializes to the document with an empty `items`
array. -/
theorem C6_output_order_and_empty (o : Output) (l : List Item) :
    (o.items' l).items = l ∧
    serializeOutput (o.items' l) =
      Json.obj [("items", Json.arr (l.map serializeItem))] ∧
    serializeOutput Output.default = Json.obj [("items", Json.arr [])] ∧
    (Output.default.items' []).write = "\x7b\"items\":[]\x7d" :=
  ⟨rfl, rfl, rfl, rfl⟩

/-- C7: the end-to-end example: one item with title, subtitle and arg,
wrapped in an `Output` and written as the `output` convenience function
does, yields exactly the documented JSON document. -/
theorem C7_end_to_end_example :
    output [((Item.new "Example title").subtitle'
        ("example subtitle")).arg' ("example")] =
      "\x7b\"items\":[\x7b\"title\":\"Example title\",\"subtitle\":\"example subtitle\",\"arg\":\"example\"\x7d]\x7d" :=
  rfl

/-- C8: the five `ModifierKey` variants serialize to their fixed external
short names, and an `Item` with a `Command` modifier whose data has only
`valid = false` serializes with a `mods` object mapping `cmd` to the
object with the single member `valid: false`. -/
theorem C8_modifier_key_external_names (t : String) :
    ModifierKey.external ModifierKey.Command = "cmd" ∧
    ModifierKey.external ModifierKey.Option = "alt" ∧
    ModifierKey.external ModifierKey.Control = "ctrl" ∧
    ModifierKey.external ModifierKey.Shift = "shift" ∧
    ModifierKey.external ModifierKey.Function = "fn" ∧
    serializeModifierData (ModifierData.new.valid' false) =
      Json.obj [("valid", Json.bool false)] ∧
    (serializeItem ((Item.new t).modifier ModifierKey.Command
        (ModifierData.new.valid' false))).get "mods" =
      some (Json.obj [("cmd", Json.obj [("valid", Json.bool false)])]) :=
  ⟨rfl, rfl, rfl, rfl, rfl, rfl, rfl⟩

/-- C9: for every `Item` field setter, applying it twice keeps only the
last value, and setters for distinct fields commute, so chained setter
calls are order-independent with last-write-per-field-wins semantics. -/
theorem C9_setters_last_write_wins_and_commute (i : Item)
    (s1 s2 : String) (ic1 ic2 : Icon) (b1 b2 : Bool) (k1 k2 : Kind)
    (x1 x2 : Text) :
    (i.subtitle' s1).subtitle' s2 = i.subtitle' s2 ∧
    (i.uid' s1).uid' s2 = i.uid' s2 ∧
    (i.arg' s1).arg' s2 = i.arg' s2 ∧
    (i.icon' ic1).icon' ic2 = i.icon' ic2 ∧
    (i.valid' b1).valid' b2 = i.valid' b2 ∧
    (i.matches' s1).matches' s2 = i.matches' s2 ∧
    (i.autocomplete' s1).autocomplete' s2 = i.autocomplete' s2 ∧
    (i.kind' k1).kind' k2 = i.kind' k2 ∧
    (i.text' x1).text' x2 = i.text' x2 ∧
    (i.quicklook_url' s1).quicklook_url' s2 = i.quicklook_url' s2 ∧
    (i.subtitle' s1).uid' s2 = (i.uid' s2).subtitle' s1 ∧
    (i.subtitle' s1).arg' s2 = (i.arg' s2).subtitle' s1 ∧
    (i.subtitle' s1).icon' ic2 = (i.icon' ic2).subtitle' s1 ∧
    (i.subtitle' s1).valid' b2 = (i.valid' b2).subtitle' s1 ∧
    (i.subtitle' s1).matches' s2 = (i.matches' s2).subtitle' s1 ∧
    (i.subtitle' s1).autocomplete' s2 = (i.autocomplete' s2).subtitle' s1 ∧
    (i.subtitle' s1).kind' k2 = (i.kind' k2).subtitle' s1 ∧
    (i.subtitle' s1).text' x2 = (i.text' x2).subtitle' s1 ∧
    (i.subtitle' s1).quicklook_url' s2 = (i.quicklook_url' s2).subtitle' s1 ∧
    (i.uid' s1).arg' s2 = (i.arg' s2).uid' s1 ∧
    (i.uid' s1).icon' ic2 = (i.icon' ic2).uid' s1 ∧
    (i.uid' s1).valid' b2 = (i.valid' b2).uid' s1 ∧
    (i.uid' s1).matches' s2 = (i.matches' s2).uid' s1 ∧
    (i.uid' s1).autocomplete' s2 = (i.autocomplete' s2).uid' s1 ∧
    (i.uid' s1).kind' k2 = (i.kind' k2).uid' s1 ∧
    (i.uid' s1).text' x2 = (i.text' x2).uid' s1 ∧
    (i.uid' s1).quicklook_url' s2 = (i.quicklook_url' s2).uid' s1 ∧
    (i.arg' s1).icon' ic2 = (i.icon' ic2).arg' s1 ∧
    (i.arg' s1).valid' b2 = (i.valid' b2).arg' s1 ∧
    (i.arg' s1).matches' s2 = (i.matches' s2).arg' s1 ∧
    (i.arg' s1).autocomplete' s2 = (i.autocomplete' s2).arg' s1 ∧
    (i.arg' s1).kind' k2 = (i.kind' k2).arg' s1 ∧
    (i.arg' s1).text' x2 = (i.text' x2).arg' s1 ∧
    (i.arg' s1).quicklook_url' s2 = (i.quicklook_url' s2).arg' s1 ∧
    (i.icon' ic1).valid' b2 = (i.valid' b2).icon' ic1 ∧
    (i.icon' ic1).matches' s2 = (i.matches' s2).icon' ic1 ∧
    (i.icon' ic1).autocomplete' s2 = (i.autocomplete' s2).icon' ic1 ∧
    (i.icon' ic1).kind' k2 = (i.kind' k2).icon' ic1 ∧
    (i.icon' ic1).text' x2 = (i.text' x2).icon' ic1 ∧
    (i.icon' ic1).quicklook_url' s2 = (i.quicklook_url' s2).icon' ic1 ∧
    (i.valid' b1).matches' s2 = (i.matches' s2).valid' b1 ∧
    (i.valid' b1).autocomplete' s2 = (i.autocomplete' s2).valid' b1 ∧
    (i.valid' b1).kind' k2 = (i.kind' k2).valid' b1 ∧
    (i.valid' b1).text' x2 = (i.text' x2).valid' b1 ∧
    (i.valid' b1).quicklook_url' s2 = (i.quicklook_url' s2).valid' b1 ∧
    (i.matches' s1).autocomplete' s2 = (i.autocomplete' s2).matches' s1 ∧
    (i.matches' s1).kind' k2 = (i.kind' k2).matches' s1 ∧
    (i.matches' s1).text' x2 = (i.text' x2).matches' s1 ∧
    (i.matches' s1).quicklook_url' s2 = (i.quicklook_url' s2).matches' s1 ∧
    (i.autocomplete' s1).kind' k2 = (i.kind' k2).autocomplete' s1 ∧
    (i.autocomplete' s1).text' x2 = (i.text' x2).autocomplete' s1 ∧
    (i.autocomplete' s1).quicklook_url' s2 = (i.quicklook_url' s2).autocomplete' s1 ∧
    (i.kind' k1).text' x2 = (i.text' x2).kind' k1 ∧
    (i.kind' k1).quicklook_url' s2 = (i.quicklook_url' s2).kind' k1 ∧
    (i.text' x1).quicklook_url' s2 = (i.quicklook_url' s2).text' x1 :=
  ⟨rfl, rfl, rfl, rfl, rfl, rfl, rfl, rfl, rfl, rfl, rfl, rfl, rfl, rfl, rfl, rfl, rfl, rfl, rfl, rfl, rfl, rfl, rfl, rfl, rfl, rfl, rfl, rfl, rfl, rfl, rfl, rfl, rfl, rfl, rfl, rfl, rfl, rfl, rfl, rfl, rfl, rfl, rfl, rfl, rfl, rfl, rfl, rfl, rfl, rfl, rfl, rfl, rfl, rfl, rfl⟩


/-! # Hash-map insert invariants -/

theorem lookupMod_replace (m : List (ModifierKey × ModifierData))
    (k : ModifierKey) (d : ModifierData)
    (h : m.any (fun p => p.1 = k) = true) :
    lookupMod (m.map (fun p => if p.1 = k then (k, d) else p)) k =
      some d := by
  induction m with
  | nil => simp at h
  | cons a rest ih =>
    rw [List.map_cons]
    by_cases hk : a.1 = k
    · rw [if_pos hk]
      simp [lookupMod]
    · rw [if_neg hk]
      have hdk : (decide (a.1 = k)) = false := decide_eq_false hk
      rw [List.any_cons, hdk, Bool.false_or] at h
      simp only [lookupMod]
      rw [if_neg hk]
      exact ih h

theorem lookupMod_append_absent (m : List (ModifierKey × ModifierData))
    (k : ModifierKey) (d : ModifierData)
    (h : m.any (fun p => p.1 = k) = false) :
    lookupMod (m ++ [(k, d)]) k = some d := by
  induction m with
  | nil => simp [lookupMod]
  | cons a rest ih =>
    rw [List.any_cons, Bool.or_eq_false_iff] at h
    obtain ⟨h1, h2⟩ := h
    rw [List.cons_append]
    simp only [lookupMod]
    rw [if_neg (by simpa using h1)]
    exact ih h2

theorem lookupMod_map_ne (m : List (ModifierKey × ModifierData))
    (k : ModifierKey) (d : ModifierData) (k' : ModifierKey)
    (h : ¬ k' = k) :
    lookupMod (m.map (fun p => if p.1 = k then (k, d) else p)) k' =
      lookupMod m k' := by
  have hkk : ¬ k = k' := fun e => h (Eq.symm e)
  induction m with
  | nil => rfl
  | cons a rest ih =>
    rw [List.map_cons]
    by_cases hk : a.1 = k
    · rw [if_pos hk]
      simp only [lookupMod]
      rw [if_neg hkk, if_neg (show ¬ a.1 = k' by rw [hk]; exact hkk)]
      exact ih
    · rw [if_neg hk]
      simp only [lookupMod]
      rw [ih]

theorem lookupMod_append_ne (m : List (ModifierKey × ModifierData))
    (k : ModifierKey) (d : ModifierData) (k' : ModifierKey)
    (h : ¬ k' = k) :
    lookupMod (m ++ [(k, d)]) k' = lookupMod m k' := by
  have hkk : ¬ k = k' := fun e => h (Eq.symm e)
  induction m with
  | nil =>
    simp only [List.nil_append, lookupMod]
    rw [if_neg hkk]
  | cons a rest ih =>
    rw [List.cons_append]
    simp only [lookupMod]
    rw [ih]

theorem map_fst_replace (m : List (ModifierKey × ModifierData))
    (k : ModifierKey) (d : ModifierData) :
    (m.map (fun p => if p.1 = k then (k, d) else p)).map Prod.fst =
      m.map Prod.fst := by
  induction m with
  | nil => rfl
  | cons a rest ih => by_cases hk : a.1 = k <;> simp [hk, ih]

theorem countP_key_eq_zero (m : List (ModifierKey × ModifierData))
    (k : ModifierKey) (h : m.any (fun p => p.1 = k) = false) :
    m.countP (fun p => p.1 = k) = 0 := by
  rw [List.countP_eq_zero]
  intro p hp
  rw [List.any_eq_false] at h
  simpa using h p hp

theorem countP_key_eq_one (m : List (ModifierKey × ModifierData))
    (k : ModifierKey) (hany : m.any (fun p => p.1 = k) = true)
    (h : (m.map Prod.fst).Nodup) :
    m.countP (fun p => p.1 = k) = 1 := by
  induction m with
  | nil => simp at hany
  | cons a rest ih =>
    rw [List.map_cons, List.nodup_cons] at h
    by_cases hk : a.1 = k
    · have hzero : rest.countP (fun p => p.1 = k) = 0 := by
        rw [List.countP_eq_zero]
        intro p hp
        have : p.1 ∈ rest.map Prod.fst := List.mem_map_of_mem Prod.fst hp
        simp only [decide_eq_true_eq]
        intro hpk
        exact h.1 (by rw [hk, ← hpk]; exact this)
      rw [List.countP_cons, hzero]
      simp [hk]
    · simp only [List.any_cons, Bool.or_eq_true, decide_eq_true_eq] at hany
      rcases hany with hany | hany
      · exact absurd hany hk
      · rw [List.countP_cons, ih hany h.2]
        simp [hk]

/-- Claim C10's conclusion, proved of `hashInsert` directly. -/
theorem hashInsert_spec (m : List (ModifierKey × ModifierData))
    (k : ModifierKey) (d : ModifierData) (k' : ModifierKey)
    (h : (m.map Prod.fst).Nodup) (hne : ¬ k' = k) :
    ((hashInsert m k d).map Prod.fst).Nodup ∧
    lookupMod (hashInsert m k d) k = some d ∧
    (hashInsert m k d).countP (fun p => p.1 = k) = 1 ∧
    lookupMod (hashInsert m k d) k' = lookupMod m k' := by
  unfold hashInsert
  split
  · rename_i hany
    refine ⟨?_, lookupMod_replace m k d hany, ?_,
      lookupMod_map_ne m k d k' hne⟩
    · rw [map_fst_replace]
      exact h
    · rw [List.countP_map]
      have heq : ((fun p => decide (p.1 = k)) ∘
          (fun p : ModifierKey × ModifierData =>
            if p.1 = k then (k, d) else p)) =
          fun p => decide (p.1 = k) := by
        funext p
        by_cases hk : p.1 = k <;> simp [hk]
      rw [heq]
      exact countP_key_eq_one m k hany h
  · rename_i hany
    rw [Bool.not_eq_true] at hany
    refine ⟨?_, lookupMod_append_absent m k d hany, ?_,
      lookupMod_append_ne m k d k' hne⟩
    · have hk : k ∉ m.map Prod.fst := by
        intro hmem
        rw [List.mem_map] at hmem
        obtain ⟨p, hp, hpk⟩ := hmem
        rw [List.any_eq_false] at hany
        exact absurd (by simp [hpk]) (hany p hp)
      rw [List.map_append]
      exact h.append (List.nodup_singleton k)
        (List.disjoint_singleton.mpr hk)
    · rw [List.countP_append, countP_key_eq_zero m k hany]
      simp [List.countP_cons]

/-- C10: the modifier map of an `Item` keeps its keys unique under
`modifier(key, data)`: inserting under a key replaces any previously
stored data, leaves exactly one entry for that key, and does not touch
entries under other keys. -/
theorem C10_modifier_map_unique_keys (i : Item) (k : ModifierKey)
    (d : ModifierData) (k' : ModifierKey) (t : String)
    (h : (i.modifiers.map Prod.fst).Nodup) (hne : ¬ k' = k) :
    (((Item.new t).modifiers.map Prod.fst).Nodup) ∧
    (((i.modifier k d).modifiers.map Prod.fst).Nodup) ∧
    lookupMod (i.modifier k d).modifiers k = some d ∧
    (i.modifier k d).modifiers.countP (fun p => p.1 = k) = 1 ∧
    lookupMod (i.modifier k d).modifiers k' = lookupMod i.modifiers k' := by
  have hs := hashInsert_spec i.modifiers k d k' h hne
  exact ⟨List.nodup_nil, hs.1, hs.2.1, hs.2.2.1, hs.2.2.2⟩

theorem C10_witness :
    ((((Item.new "a").modifiers.map Prod.fst).Nodup) ∧
    (((((Item.new "a").modifier ModifierKey.Command
        ModifierData.new).modifier ModifierKey.Command
        (ModifierData.new.valid' false)).modifiers.map Prod.fst).Nodup) ∧
    lookupMod (((Item.new "a").modifier ModifierKey.Command
        ModifierData.new).modifier ModifierKey.Command
        (ModifierData.new.valid' false)).modifiers ModifierKey.Command =
      some (ModifierData.new.valid' false) ∧
    (((Item.new "a").modifier ModifierKey.Command
        ModifierData.new).modifier ModifierKey.Command
        (ModifierData.new.valid' false)).modifiers.countP
        (fun p => p.1 = ModifierKey.Command) = 1 ∧
    lookupMod (((Item.new "a").modifier ModifierKey.Command
        ModifierData.new).modifier ModifierKey.Command
        (ModifierData.new.valid' false)).modifiers ModifierKey.Shift =
      lookupMod ((Item.new "a").modifier ModifierKey.Command
        ModifierData.new).modifiers ModifierKey.Shift) :=
  C10_modifier_map_unique_keys
    ((Item.new "a").modifier ModifierKey.Command ModifierData.new)
    ModifierKey.Command (ModifierData.new.valid' false) ModifierKey.Shift
    "a" (by decide) (by decide)

end Powerpack
